import Mathlib

/-!
Verification development for the Author-api repository (books app).

The definitions below are a shallow embedding of src/books/models.py and
src/books/views.py. Django model rows become Lean structures, the database
becomes explicit lists of rows threaded through each operation, and each view
function becomes a pure Lean function returning its response value together
with the updated store. Machine integers of the source are modelled as Int
(Django IntegerField is a 64-bit integer; no operation here approaches
overflow, and the source itself performs plain Python integer arithmetic).
-/

namespace AuthorApi

/-- Row of books/models.py UserProfile (lines 6-18). The Django User row it
points to is collapsed into the profile: the only User attribute the core
reads is the email (used for lookup and for referral descriptions), so it is
carried here as a field. -/
structure UserProfile where
  id : Nat
  email : String
  google_id : String
  referral_code : String
  referred_by : Option Nat
  credits : Int
  total_credits_earned : Int
  total_credits_spent : Int
  deriving DecidableEq

/-- Row of books/models.py BookSite (lines 20-29). The api_key check of each
view is performed by the HTTP layer lookup; the embedded operations receive
the already-resolved active site row, as every claim starts from a valid
caller site. -/
structure BookSite where
  id : Nat
  name : String
  domain : String
  is_active : Bool
  deriving DecidableEq

/-- Row of books/models.py UserSiteActivity (lines 31-40); timestamps are
dropped, the visit counter is kept. -/
structure UserSiteActivity where
  user : Nat
  site : Nat
  total_visits : Int
  deriving DecidableEq

/-- Row of books/models.py CreditTransaction (lines 56-73). -/
structure CreditTransaction where
  user : Nat
  site : Option Nat
  transaction_type : String
  amount : Int
  description : String
  deriving DecidableEq

/-- Row of books/models.py Book (lines 75-86), restricted to the field the
credit core reads. -/
structure Book where
  id : Nat
  chapter_credit_cost : Int
  deriving DecidableEq

/-- Row of books/models.py UserBook (lines 88-103), restricted to the fields
unlock_chapter touches. -/
structure UserBook where
  user : Nat
  book : Nat
  unlocked_chapters : Int
  deriving DecidableEq

/-- The durable relational store: the three tables the credit and activity
core mutates. -/
structure DB where
  profiles : List UserProfile
  transactions : List CreditTransaction
  activities : List UserSiteActivity
  deriving DecidableEq

/-- Django object save on an already-inserted profile row: replace the row
with the same primary key. -/
def saveProfile (ps : List UserProfile) (p : UserProfile) : List UserProfile :=
  ps.map (fun q => if q.id = p.id then p else q)

/-- UserProfile.objects.get(referral_code=...) resolved to the first matching
row (the column is unique, so at most one row matches in a well-formed db). -/
def findByReferralCode (ps : List UserProfile) (rc : String) : Option UserProfile :=
  ps.find? (fun p => p.referral_code == rc)

/-- Predicate selecting the (user, site) row of UserSiteActivity. -/
def activityMatches (u s : Nat) (a : UserSiteActivity) : Bool :=
  a.user == u && a.site == s

/-- The UserSiteActivity.objects.get_or_create upsert used at
views.py lines 147-154, 371-378 and 474-481: create the row with
total_visits 1 when absent, otherwise increment its counter. -/
def get_or_create_visit (acts : List UserSiteActivity) (u s : Nat) :
    List UserSiteActivity :=
  match acts.find? (activityMatches u s) with
  | some _ => acts.map (fun b =>
      if activityMatches u s b then
        { b with total_visits := b.total_visits + 1 }
      else b)
  | none => acts ++ [⟨u, s, 1⟩]

/-- Activity tracking lifted to the whole store. -/
def record_visit (db : DB) (u s : Nat) : DB :=
  { db with activities := get_or_create_visit db.activities u s }

/-- Response alternatives of UserProfileViewSet.update_credits. -/
inductive UpdateCreditsResult where
  | ok (credits : Int)
  | insufficientCredits
  deriving DecidableEq

/-- views.py lines 48-77, UserProfileViewSet.update_credits: the credit
ledger engine. Note the source mutates the balance by abs(amount) but records
the raw request amount in the transaction row (line 70). -/
def update_credits (profile : UserProfile) (txs : List CreditTransaction)
    (site : BookSite) (amount : Int) (transaction_type : String)
    (description : String) :
    UpdateCreditsResult × UserProfile × List CreditTransaction :=
  if transaction_type = ("spent") then
    if profile.credits < |amount| then
      (.insufficientCredits, profile, txs)
    else
      let p := { profile with
        credits := profile.credits - |amount|,
        total_credits_spent := profile.total_credits_spent + |amount| }
      (.ok p.credits, p,
        txs ++ [⟨profile.id, some site.id, transaction_type, amount, description⟩])
  else
    let p := { profile with
      credits := profile.credits + |amount|,
      total_credits_earned := profile.total_credits_earned + |amount| }
    (.ok p.credits, p,
      txs ++ [⟨profile.id, some site.id, transaction_type, amount, description⟩])

/-- Response alternatives of UserBookViewSet.unlock_chapter. -/
inductive UnlockResult where
  | ok (unlocked_chapters : Int) (remaining_credits : Int)
  | insufficientCredits
  deriving DecidableEq

/-- views.py lines 96-117, UserBookViewSet.unlock_chapter: the book and
profile rows the source dereferences through foreign keys are passed
directly. The source decrements credits without touching
total_credits_spent and records no transaction. -/
def unlock_chapter (user_book : UserBook) (book : Book) (profile : UserProfile) :
    UnlockResult × UserProfile × UserBook :=
  if book.chapter_credit_cost ≤ profile.credits then
    let p := { profile with credits := profile.credits - book.chapter_credit_cost }
    let ub := { user_book with unlocked_chapters := user_book.unlocked_chapters + 1 }
    (.ok ub.unlocked_chapters p.credits, p, ub)
  else
    (.insufficientCredits, profile, user_book)

/-- The balance decomposition invariant of the spec data model. -/
def ledger_invariant_b (p : UserProfile) : Bool :=
  p.credits == p.total_credits_earned - p.total_credits_spent

/-- Response alternatives of the password login view. -/
inductive PasswordLoginResult where
  | success (profile : UserProfile) (is_new : Bool)
  | invalidCredentials
  deriving DecidableEq

/-- views.py lines 173-272: the new-account branch of distributed_login
(reached after authenticate returned no user). Row creation appends to the
table; each later object save updates the row in place. The fresh user id and
fresh uuid referral code the storage layer would pick are passed in. The
referral lookup at line 199 runs after the new profile row was inserted, so
the new row itself is a candidate; the source guards with referrer != profile
(line 200) which is an identity comparison, embedded as an id comparison. -/
def distributed_login_new (db : DB) (site : BookSite) (email : String)
    (referral_code : Option String) (newId : Nat) (newRefCode : String) :
    PasswordLoginResult × DB :=
  if db.profiles.any (fun p => p.email == email) then
    (.invalidCredentials, db)
  else
    let profile0 : UserProfile :=
      { id := newId, email := email, google_id := "", referral_code := newRefCode,
        referred_by := none, credits := 5, total_credits_earned := 0,
        total_credits_spent := 0 }
    let db1 : DB := { db with profiles := db.profiles ++ [profile0] }
    match referral_code with
    | some rc =>
      match findByReferralCode db1.profiles rc with
      | some referrer =>
        if referrer.id ≠ profile0.id then
          let profile1 := { profile0 with
            referred_by := some referrer.id,
            credits := profile0.credits + 5,
            total_credits_earned := 10 }
          let db2 := { db1 with profiles := saveProfile db1.profiles profile1 }
          let referrer1 := { referrer with
            credits := referrer.credits + 10,
            total_credits_earned := referrer.total_credits_earned + 10 }
          let db3 := { db2 with profiles := saveProfile db2.profiles referrer1 }
          let db4 := { db3 with transactions := db3.transactions ++
            ([⟨profile1.id, some site.id, ("welcome_bonus"), 10,
              ("Welcome bonus + referral bonus")⟩,
             ⟨referrer1.id, some site.id, ("referral_bonus"), 10,
              ("Referral bonus for ") ++ email⟩] : List CreditTransaction) }
          let db5 := { db4 with activities := db4.activities ++
            ([⟨profile1.id, site.id, 1⟩] : List UserSiteActivity) }
          (.success profile1 true, db5)
        else
          let db5 := { db1 with activities := db1.activities ++
            ([⟨profile0.id, site.id, 1⟩] : List UserSiteActivity) }
          (.success profile0 true, db5)
      | none =>
        let profile1 := { profile0 with total_credits_earned := 5 }
        let db2 := { db1 with
          profiles := saveProfile db1.profiles profile1,
          transactions := db1.transactions ++
            ([⟨profile1.id, some site.id, ("welcome_bonus"), 5,
              ("Welcome bonus")⟩] : List CreditTransaction) }
        let db3 := { db2 with activities := db2.activities ++
          ([⟨profile1.id, site.id, 1⟩] : List UserSiteActivity) }
        (.success profile1 true, db3)
    | none =>
      let profile1 := { profile0 with total_credits_earned := 5 }
      let db2 := { db1 with
        profiles := saveProfile db1.profiles profile1,
        transactions := db1.transactions ++
          ([⟨profile1.id, some site.id, ("welcome_bonus"), 5,
            ("Welcome bonus")⟩] : List CreditTransaction) }
      let db3 := { db2 with activities := db2.activities ++
        ([⟨profile1.id, site.id, 1⟩] : List UserSiteActivity) }
      (.success profile1 true, db3)

/-- views.py lines 142-171: the existing-user branch of distributed_login.
The site-activity upsert at lines 147-154 runs with no surrounding
try/except, so a storage failure there propagates out of the view as an
unhandled exception instead of a login response; the collaborator
fallibility is made explicit through the trackerFails flag and the Except
result. -/
def distributed_login_existing (db : DB) (site : BookSite) (profile : UserProfile)
    (trackerFails : Bool) : Except String (PasswordLoginResult × DB) :=
  if trackerFails then .error ("site activity storage failure")
  else .ok (.success profile false, record_visit db profile.id site.id)

/-- views.py lines 276-402, google_sso_login, after token verification
returned the google subject id and email. Resolution order of lines 306-336:
by google_id first, then by email (linking the google id), otherwise a fresh
account. The fresh account is created with credits 5 and
total_credits_earned 0 (line 331-335); only the referral branches ever touch
total_credits_earned afterwards, and only the valid-referral branch writes
ledger entries (lines 352-365). -/
def google_sso_login (db : DB) (site : BookSite) (google_id email : String)
    (referral_code : Option String) (newId : Nat) (newRefCode : String) :
    DB × UserProfile × Bool :=
  match db.profiles.find? (fun p => p.google_id == google_id) with
  | some profile =>
    (record_visit db profile.id site.id, profile, false)
  | none =>
    match db.profiles.find? (fun p => p.email == email) with
    | some profile0 =>
      let profile := { profile0 with google_id := google_id }
      let db1 := { db with profiles := saveProfile db.profiles profile }
      (record_visit db1 profile.id site.id, profile, false)
    | none =>
      let profile0 : UserProfile :=
        { id := newId, email := email, google_id := google_id,
          referral_code := newRefCode, referred_by := none, credits := 5,
          total_credits_earned := 0, total_credits_spent := 0 }
      let db1 := { db with profiles := db.profiles ++ [profile0] }
      match referral_code with
      | some rc =>
        match findByReferralCode db1.profiles rc with
        | some referrer =>
          if referrer.id ≠ profile0.id then
            let profile1 := { profile0 with
              referred_by := some referrer.id,
              credits := profile0.credits + 5,
              total_credits_earned := 10 }
            let db2 := { db1 with profiles := saveProfile db1.profiles profile1 }
            let referrer1 := { referrer with
              credits := referrer.credits + 10,
              total_credits_earned := referrer.total_credits_earned + 10 }
            let db3 := { db2 with profiles := saveProfile db2.profiles referrer1 }
            let db4 := { db3 with transactions := db3.transactions ++
              ([⟨profile1.id, some site.id, ("welcome_bonus"), 10,
                ("Welcome + referral bonus")⟩,
               ⟨referrer1.id, some site.id, ("referral_bonus"), 10,
                ("Referral bonus for ") ++ email⟩] : List CreditTransaction) }
            (record_visit db4 profile1.id site.id, profile1, true)
          else
            (record_visit db1 profile0.id site.id, profile0, true)
        | none =>
          let profile1 := { profile0 with total_credits_earned := 5 }
          let db2 := { db1 with profiles := saveProfile db1.profiles profile1 }
          (record_visit db2 profile1.id site.id, profile1, true)
      | none =>
        (record_visit db1 profile0.id site.id, profile0, true)

/-- Payload stored for a handoff code at views.py lines 425-429. -/
structure AuthData where
  user_id : Nat
  target_site_id : Nat
  expires_at : String
  deriving DecidableEq

/-- The ephemeral code store (django cache restricted to the auth-code keys),
keys paired with their payload. TTL expiry is the absence of the key. -/
abbrev Cache := List (String × AuthData)

/-- cache.get: first binding of the key. -/
def cacheGet (c : Cache) (k : String) : Option AuthData :=
  (c.find? (fun e => e.1 == k)).map (fun e => e.2)

/-- cache.delete: drop every binding of the key. -/
def cacheDelete (c : Cache) (k : String) : Cache :=
  c.filter (fun e => !(e.1 == k))

/-- cache.set: overwrite the binding of the key. -/
def cacheSet (c : Cache) (k : String) (v : AuthData) : Cache :=
  cacheDelete c k ++ [(k, v)]

/-- views.py lines 404-436, generate_auth_code, after the target site was
resolved: stores the payload under the prefixed key. The random code and the
iso-formatted expiry the source computes are passed in. -/
def generate_auth_code (c : Cache) (user_id : Nat) (target_site : BookSite)
    (auth_code expires_at : String) : Cache × String :=
  (cacheSet c (("auth_code:") ++ auth_code) ⟨user_id, target_site.id, expires_at⟩,
   auth_code)

/-- Response alternatives of exchange_auth_code. -/
inductive ExchangeResult where
  | success (user_id : Nat)
  | invalidOrExpiredCode
  | siteMismatch
  | userNotFound
  deriving DecidableEq

/-- views.py lines 438-497, exchange_auth_code, after the caller site was
resolved from its api key. Order of the source: cache.get (455), absence
check (457), site mismatch check (461) which returns with the code still
stored, cache.delete (465), user lookup (467-471), activity upsert and
response. -/
def exchange_auth_code (db : DB) (c : Cache) (site : BookSite)
    (auth_code : String) : ExchangeResult × DB × Cache :=
  match cacheGet c (("auth_code:") ++ auth_code) with
  | none => (.invalidOrExpiredCode, db, c)
  | some auth_data =>
    if auth_data.target_site_id ≠ site.id then
      (.siteMismatch, db, c)
    else
      let c2 := cacheDelete c (("auth_code:") ++ auth_code)
      match db.profiles.find? (fun p => p.id == auth_data.user_id) with
      | none => (.userNotFound, db, c2)
      | some profile =>
        (.success profile.id, record_visit db profile.id site.id, c2)

/-- exchange_auth_code with the fallibility of the site-activity upsert
(lines 474-481) made explicit: the view wraps no try/except around it, so a
storage failure there escapes as an unhandled exception. -/
def exchange_auth_code_t (db : DB) (c : Cache) (site : BookSite)
    (auth_code : String) (trackerFails : Bool) :
    Except String (ExchangeResult × DB × Cache) :=
  match cacheGet c (("auth_code:") ++ auth_code) with
  | none => .ok (.invalidOrExpiredCode, db, c)
  | some auth_data =>
    if auth_data.target_site_id ≠ site.id then
      .ok (.siteMismatch, db, c)
    else
      let c2 := cacheDelete c (("auth_code:") ++ auth_code)
      match db.profiles.find? (fun p => p.id == auth_data.user_id) with
      | none => .ok (.userNotFound, db, c2)
      | some profile =>
        if trackerFails then .error ("site activity storage failure")
        else .ok (.success profile.id, record_visit db profile.id site.id, c2)

/-- Whether a possibly-aborted redemption ended as a successful handoff. -/
def succeededEx : Except String (ExchangeResult × DB × Cache) → Bool
  | .ok (.success _, _, _) => true
  | _ => false

/-- Program counter of one redemption request inside exchange_auth_code,
split at its ephemeral-store interactions: before the cache.get of line 455,
between that get and the cache.delete of line 465, and finished with a
response. -/
inductive RedeemPC where
  | start
  | gotData (d : AuthData)
  | finished (r : ExchangeResult)
  deriving DecidableEq

/-- One scheduler step of a single redemption request. From start it performs
the cache.get (line 455) and the absence check (457); from gotData it
performs the site check (461), the cache.delete (465) and the remainder of
the view. The source separates the get from the delete, so the delete is not
an atomic take. -/
def redeemStep (db : DB) (site : BookSite) (key : String) (c : Cache) :
    RedeemPC → RedeemPC × Cache
  | .start =>
    match cacheGet c key with
    | none => (.finished .invalidOrExpiredCode, c)
    | some d => (.gotData d, c)
  | .gotData d =>
    if d.target_site_id ≠ site.id then (.finished .siteMismatch, c)
    else
      let c2 := cacheDelete c key
      match db.profiles.find? (fun p => p.id == d.user_id) with
      | none => (.finished .userNotFound, c2)
      | some profile => (.finished (.success profile.id), c2)
  | .finished r => (.finished r, c)

/-- Two concurrent redemption requests of the same code sharing the
ephemeral store. -/
structure RaceState where
  cache : Cache
  pc1 : RedeemPC
  pc2 : RedeemPC
  deriving DecidableEq

/-- Run one step of the chosen request (true picks the first). -/
def raceStep (db : DB) (site : BookSite) (key : String) (first : Bool)
    (s : RaceState) : RaceState :=
  if first then
    let r := redeemStep db site key s.cache s.pc1
    { s with pc1 := r.1, cache := r.2 }
  else
    let r := redeemStep db site key s.cache s.pc2
    { s with pc2 := r.1, cache := r.2 }

/-- Run the two requests under the given interleaving schedule. -/
def runRace (db : DB) (site : BookSite) (key : String) :
    List Bool → RaceState → RaceState
  | [], s => s
  | b :: rest, s => runRace db site key rest (raceStep db site key b s)

/-- n successive visits of the same (account, site) pair through the
activity upsert. -/
def visitIter (acts : List UserSiteActivity) (u s : Nat) : Nat → List UserSiteActivity
  | 0 => acts
  | n + 1 => get_or_create_visit (visitIter acts u s n) u s

/- Concrete rows used by the closed evaluation theorems below. -/

/-- A registered active site with id 1. -/
def site1 : BookSite := { id := 1, name := ("Alpha"), domain := ("alpha.example"), is_active := true }

/-- A second registered active site with id 2. -/
def site2 : BookSite := { id := 2, name := ("Beta"), domain := ("beta.example"), is_active := true }

/-- An account holding 5 credits, all earned, none spent. -/
def p5 : UserProfile :=
  { id := 7, email := ("eva@example.com"), google_id := ("G7"), referral_code := ("RC7"),
    referred_by := none, credits := 5, total_credits_earned := 5,
    total_credits_spent := 0 }

/-- A book whose chapters cost 1 credit. -/
def book1 : Book := { id := 1, chapter_credit_cost := 1 }

/-- The shelf row of p5 for book1. -/
def ub1 : UserBook := { user := 7, book := 1, unlocked_chapters := 0 }

/-- An empty store. -/
def db0 : DB := { profiles := [], transactions := [], activities := [] }

/-- A store holding only the account p5. -/
def db7 : DB := { profiles := [p5], transactions := [], activities := [] }

/-- An ephemeral store holding one handoff code X issued for account 7 and
destination site 1. -/
def cache1 : Cache :=
  (generate_auth_code [] 7 site1 ("X") ("2026-01-01T00:05:00")).1

/-- An existing account to act as referrer in the referral theorems. -/
def referrerB : UserProfile :=
  { id := 2, email := ("bob@example.com"), google_id := "", referral_code := ("RCB"),
    referred_by := none, credits := 20, total_credits_earned := 20,
    total_credits_spent := 0 }

/-- A store holding only the referrer account. -/
def dbB : DB := { profiles := [referrerB], transactions := [], activities := [] }

/-! Helper lemmas about the store primitives. -/

/-- Deleting a key makes it unobservable to a later get. -/
theorem cacheGet_cacheDelete (c : Cache) (k : String) :
    cacheGet (cacheDelete c k) k = none := by
  unfold cacheGet cacheDelete
  have : List.find? (fun e => e.1 == k) (List.filter (fun e => !(e.1 == k)) c) = none := by
    rw [List.find?_eq_none]
    intro x hx
    have := List.of_mem_filter hx
    simp at this
    simp [this]
  rw [this]
  rfl

/-- A find? hit in a prefix survives appending rows. -/
theorem find?_append_of_some {α : Type} (p : α → Bool) (l1 l2 : List α) (a : α)
    (h : l1.find? p = some a) : (l1 ++ l2).find? p = some a := by
  rw [List.find?_append, h]
  rfl

/-- Object save distributes over table concatenation. -/
theorem saveProfile_append (l1 l2 : List UserProfile) (q : UserProfile) :
    saveProfile (l1 ++ l2) q = saveProfile l1 q ++ saveProfile l2 q :=
  List.map_append _ _ _

/-- Saving a row whose primary key appears nowhere in the table leaves the
table unchanged. -/
theorem saveProfile_of_fresh (l : List UserProfile) (q : UserProfile)
    (h : ∀ p ∈ l, p.id ≠ q.id) : saveProfile l q = l := by
  induction l with
  | nil => rfl
  | cons x xs ih =>
    unfold saveProfile at ih ⊢
    rw [List.map_cons, if_neg (h x (by simp)), ih (fun p hp => h p (List.mem_cons_of_mem x hp))]

/-- Filtering commutes with a map that does not change the predicate. -/
theorem filter_map_of_pred_eq {α : Type} (p : α → Bool) (f : α → α)
    (hp : ∀ b, p (f b) = p b) (l : List α) :
    (l.map f).filter p = (l.filter p).map f := by
  rw [List.filter_map]
  have : List.filter (p ∘ f) l = List.filter p l := by
    apply List.filter_congr
    intro a _
    exact hp a
  rw [this]

/-- The visit bump of get_or_create_visit never changes which (user, site)
pair a row belongs to. -/
theorem activityMatches_bump (u s : Nat) (b : UserSiteActivity) :
    activityMatches u s
      (if activityMatches u s b then { b with total_visits := b.total_visits + 1 } else b)
      = activityMatches u s b := by
  by_cases hb : activityMatches u s b = true
  · rw [if_pos hb]
    exact hb.trans hb.symm
  · rw [if_neg hb]

/-- First visit of a pair: the upsert appends a fresh row with counter 1. -/
theorem get_or_create_visit_absent (acts : List UserSiteActivity) (u s : Nat)
    (h : acts.filter (activityMatches u s) = []) :
    (get_or_create_visit acts u s).filter (activityMatches u s) = [⟨u, s, 1⟩] := by
  have hf : acts.find? (activityMatches u s) = none := by
    rw [List.find?_eq_none]
    exact List.filter_eq_nil_iff.mp h
  unfold get_or_create_visit
  rw [hf, List.filter_append, h]
  simp [activityMatches]

/-- Later visit of a pair: the upsert leaves a single row and bumps its
counter by one. -/
theorem get_or_create_visit_present (acts : List UserSiteActivity) (u s : Nat)
    (a : UserSiteActivity) (h : acts.filter (activityMatches u s) = [a]) :
    (get_or_create_visit acts u s).filter (activityMatches u s) =
      [{ a with total_visits := a.total_visits + 1 }] := by
  have ha : a ∈ acts.filter (activityMatches u s) := by rw [h]; simp
  have hmem := List.mem_filter.mp ha
  have hne : acts.find? (activityMatches u s) ≠ none := by
    intro hnone
    exact (List.find?_eq_none.mp hnone) a hmem.1 hmem.2
  cases hfx : acts.find? (activityMatches u s) with
  | none => exact absurd hfx hne
  | some x =>
    unfold get_or_create_visit
    rw [hfx]
    rw [filter_map_of_pred_eq _ _ (activityMatches_bump u s) acts, h]
    simp [hmem.2]

/-! Claim theorems. -/

/-- Claim C1: the claim asserts that after every core operation the balance
equals lifetime_earned minus lifetime_spent. The code violates it: starting
from an account where the invariant holds (5 credits, 5 earned, 0 spent),
unlock_chapter decrements the balance without touching total_credits_spent,
and identity-token provisioning without a referral code leaves
total_credits_earned at 0 while setting the balance to 5; both resulting
accounts falsify the invariant. -/
theorem core_ops_break_ledger_invariant :
    ledger_invariant_b p5 = true ∧
    ledger_invariant_b (unlock_chapter ub1 book1 p5).2.1 = false ∧
    ledger_invariant_b
      ((google_sso_login db0 site1 ("G9") ("new@example.com") none 1 ("RCN")).2.1)
      = false :=
  ⟨rfl, rfl, rfl⟩

/-- Claim C3: the claim asserts that federated provisioning with no referral
code matches the password path, setting balance and lifetime_earned to 5 and
writing one welcome_bonus ledger entry of 5. The code disagrees: on an empty
store the federated path provisions the account with balance 5 but
lifetime_earned 0 and writes no ledger entry at all. -/
theorem sso_provisioning_missing_welcome_entry :
    (google_sso_login db0 site1 ("G9") ("new@example.com") none 1 ("RCN")).2.1.credits = 5 ∧
    (google_sso_login db0 site1 ("G9") ("new@example.com") none 1 ("RCN")).2.1.total_credits_earned = 0 ∧
    (google_sso_login db0 site1 ("G9") ("new@example.com") none 1 ("RCN")).1.transactions = [] ∧
    (google_sso_login db0 site1 ("G9") ("new@example.com") none 1 ("RCN")).2.2 = true :=
  ⟨rfl, rfl, rfl, rfl⟩

/-- Claim C5: a spend whose magnitude exceeds the current balance fails with
the insufficient-credits response and leaves the profile row and the
transaction log exactly as they were. -/
theorem spend_insufficient_leaves_state (profile : UserProfile)
    (txs : List CreditTransaction) (site : BookSite) (amount : Int)
    (description : String) (h : profile.credits < |amount|) :
    update_credits profile txs site amount ("spent") description =
      (.insufficientCredits, profile, txs) := by
  simp [update_credits, h]

/-- Witness for spend_insufficient_leaves_state at a concrete account. -/
theorem spend_insufficient_leaves_state_wit :
    p5.credits < |(7 : Int)| ∧
    update_credits p5 [] site1 7 ("spent") ("d") = (.insufficientCredits, p5, []) :=
  ⟨by decide, spend_insufficient_leaves_state p5 [] site1 7 ("d") (by decide)⟩

/-- Claim C4 counterexample: a successful spend of magnitude 3 from a balance
of 5 appends a ledger entry whose recorded amount is the positive raw
magnitude 3, not a negative resolved amount as the claim requires for kind
spent. -/
theorem spent_entry_records_positive_cex :
    (update_credits p5 [] site1 3 ("spent") ("d")).1 = .ok 2 ∧
    (update_credits p5 [] site1 3 ("spent") ("d")).2.2 =
      [⟨7, some 1, ("spent"), 3, ("d")⟩] ∧
    (0 : Int) < 3 :=
  ⟨rfl, rfl, by decide⟩

/-- Claim C4 amended: every successful application appends exactly one ledger
entry, and its recorded amount is the caller-supplied amount unchanged for
every kind; the engine never resolves a sign into the stored amount. -/
theorem update_credits_appends_raw_entry (profile : UserProfile)
    (txs : List CreditTransaction) (site : BookSite) (amount : Int)
    (transaction_type description : String)
    (hs : transaction_type = ("spent") → |amount| ≤ profile.credits) :
    (update_credits profile txs site amount transaction_type description).2.2 =
      txs ++ [⟨profile.id, some site.id, transaction_type, amount, description⟩] := by
  by_cases h : transaction_type = ("spent")
  · have h2 : ¬ profile.credits < |amount| := not_lt.mpr (hs h)
    simp [update_credits, h, h2]
  · simp [update_credits, h]

/-- Witness for update_credits_appends_raw_entry at an earning application. -/
theorem update_credits_appends_raw_entry_wit :
    ((("earned") : String) = ("spent") → |(-3 : Int)| ≤ p5.credits) ∧
    (update_credits p5 [] site1 (-3) ("earned") ("d")).2.2 =
      [] ++ [⟨p5.id, some site1.id, ("earned"), -3, ("d")⟩] :=
  ⟨by decide,
   update_credits_appends_raw_entry p5 [] site1 (-3) ("earned") ("d") (by decide)⟩

/-- Claim C10: the balance and the lifetime counters move by the absolute
value of the supplied amount (down for kind spent, up for every other kind),
while the appended transaction row stores the raw supplied amount unchanged;
hence a negative supplied amount on an earning kind logs a sign opposite to
the balance change. -/
theorem update_credits_abs_mutation_raw_log (profile : UserProfile)
    (txs : List CreditTransaction) (site : BookSite) (amount : Int)
    (transaction_type description : String) :
    (transaction_type ≠ ("spent") →
      update_credits profile txs site amount transaction_type description =
        (.ok (profile.credits + |amount|),
         { profile with
           credits := profile.credits + (|amount|),
           total_credits_earned := profile.total_credits_earned + (|amount|) },
         txs ++ [⟨profile.id, some site.id, transaction_type, amount, description⟩]))
    ∧ (|amount| ≤ profile.credits →
      update_credits profile txs site amount ("spent") description =
        (.ok (profile.credits - |amount|),
         { profile with
           credits := profile.credits - (|amount|),
           total_credits_spent := profile.total_credits_spent + (|amount|) },
         txs ++ [⟨profile.id, some site.id, ("spent"), amount, description⟩])) := by
  constructor
  · intro h
    simp [update_credits, h]
  · intro h
    have h2 : ¬ profile.credits < |amount| := not_lt.mpr h
    simp [update_credits, h2]

/-- Witness for update_credits_abs_mutation_raw_log: an earning update with
supplied amount -3 raises the balance by 3 yet logs -3. -/
theorem update_credits_abs_mutation_raw_log_wit :
    ((("earned") : String) ≠ ("spent")) ∧
    update_credits p5 [] site1 (-3) ("earned") ("d") =
      (.ok (p5.credits + |(-3 : Int)|),
       { p5 with
         credits := p5.credits + (|(-3 : Int)|),
         total_credits_earned := p5.total_credits_earned + (|(-3 : Int)|) },
       [] ++ [⟨p5.id, some site1.id, ("earned"), -3, ("d")⟩]) :=
  ⟨by decide,
   (update_credits_abs_mutation_raw_log p5 [] site1 (-3) ("earned") ("d")).1 (by decide)⟩

/-- Claim C2 counterexample: redeeming the stored code X (destination site 1)
as site 2 fails with the site-mismatch response while leaving the ephemeral
store untouched, and the very same code then redeems successfully as site 1 —
so a mismatched redemption does not consume the code and the follow-up
redemption does not fail with the invalid-or-expired response. -/
theorem site_mismatch_keeps_code_cex :
    exchange_auth_code db7 cache1 site2 ("X") = (.siteMismatch, db7, cache1) ∧
    (exchange_auth_code db7 cache1 site1 ("X")).1 = .success 7 :=
  ⟨rfl, rfl⟩

/-- Claim C2 amended: a redemption by a caller site different from the stored
destination fails with the site-mismatch response and leaves the durable
store and the ephemeral store completely unchanged — the mismatch check at
views.py line 461 precedes the delete at line 465, so the code is not
consumed and remains redeemable. -/
theorem site_mismatch_leaves_state_unchanged (db : DB) (c : Cache)
    (site : BookSite) (auth_code : String) (d : AuthData)
    (hd : cacheGet c (("auth_code:") ++ auth_code) = some d)
    (hne : d.target_site_id ≠ site.id) :
    exchange_auth_code db c site auth_code = (.siteMismatch, db, c) := by
  unfold exchange_auth_code
  rw [hd]
  simp [hne]

/-- Witness for site_mismatch_leaves_state_unchanged at the stored code X. -/
theorem site_mismatch_leaves_state_unchanged_wit :
    cacheGet cache1 (("auth_code:") ++ ("X")) =
      some ⟨7, 1, ("2026-01-01T00:05:00")⟩ ∧
    ((⟨7, 1, ("2026-01-01T00:05:00")⟩ : AuthData).target_site_id ≠ site2.id) ∧
    exchange_auth_code db7 cache1 site2 ("X") = (.siteMismatch, db7, cache1) :=
  ⟨rfl, by decide,
   site_mismatch_leaves_state_unchanged db7 cache1 site2 ("X")
     ⟨7, 1, ("2026-01-01T00:05:00")⟩ rfl (by decide)⟩

/-- Claim C7 counterexample: under the interleaving get-get-delete-delete,
two redemptions of the same stored code both finish successfully — the
source performs cache.get and cache.delete as separate store operations, so
the delete-on-redeem is not an atomic take and a racing pair is not
guaranteed one success and one invalid-or-expired failure. -/
theorem race_double_redeem_both_succeed_cex :
    (runRace db7 site1 (("auth_code:") ++ ("X")) [true, false, true, false]
      ⟨cache1, .start, .start⟩).pc1 = .finished (.success 7) ∧
    (runRace db7 site1 (("auth_code:") ++ ("X")) [true, false, true, false]
      ⟨cache1, .start, .start⟩).pc2 = .finished (.success 7) :=
  ⟨rfl, rfl⟩

/-- Claim C8 counterexample: a redemption of the valid stored code X by the
correct site aborts with an unhandled storage exception when the
site-activity upsert fails, whereas the same redemption succeeds when the
upsert works — the tracking failure is not swallowed and no successful
response is produced. -/
theorem tracking_failure_aborts_redeem_cex :
    exchange_auth_code_t db7 cache1 site1 ("X") true =
      .error ("site activity storage failure") ∧
    succeededEx (exchange_auth_code_t db7 cache1 site1 ("X") false) = true :=
  ⟨rfl, rfl⟩

/-- Claim C8 amended: a failure of the site-activity upsert aborts the parent
operation — an existing-user login always propagates the storage exception
instead of returning a login response, and a handoff redemption never
produces a successful response when the upsert fails. -/
theorem tracking_failure_aborts_parent :
    (∀ (db : DB) (site : BookSite) (profile : UserProfile),
      distributed_login_existing db site profile true =
        .error ("site activity storage failure")) ∧
    (∀ (db : DB) (c : Cache) (site : BookSite) (auth_code : String),
      succeededEx (exchange_auth_code_t db c site auth_code true) = false) := by
  constructor
  · intro db site profile
    rfl
  · intro db c site auth_code
    unfold exchange_auth_code_t
    split
    · rfl
    · split
      · rfl
      · split
        · rfl
        · rfl

/-- Claim C7 amended: when the two redemptions do not overlap, the first
redemption of a stored, site-matching code for an existing account succeeds,
and the second redemption of the same code against the resulting stores
fails with the invalid-or-expired response, because the first one deleted
the code. The one-success guarantee holds only for this sequential
execution; the interleaved counterexample shows it is not delivered by an
atomic take. -/
theorem sequential_double_redeem (db : DB) (c : Cache) (site : BookSite)
    (auth_code : String) (d : AuthData) (profile : UserProfile)
    (hd : cacheGet c (("auth_code:") ++ auth_code) = some d)
    (hsite : d.target_site_id = site.id)
    (hp : db.profiles.find? (fun p => p.id == d.user_id) = some profile) :
    (exchange_auth_code db c site auth_code).1 = .success profile.id ∧
    (exchange_auth_code (exchange_auth_code db c site auth_code).2.1
      (exchange_auth_code db c site auth_code).2.2 site auth_code).1 =
      .invalidOrExpiredCode := by
  have hmain : exchange_auth_code db c site auth_code =
      (.success profile.id, record_visit db profile.id site.id,
        cacheDelete c (("auth_code:") ++ auth_code)) := by
    unfold exchange_auth_code
    rw [hd]
    simp [hsite, hp]
  constructor
  · rw [hmain]
  · rw [hmain]
    unfold exchange_auth_code
    rw [cacheGet_cacheDelete]

/-- Witness for sequential_double_redeem at the stored code X. -/
theorem sequential_double_redeem_wit :
    cacheGet cache1 (("auth_code:") ++ ("X")) =
      some ⟨7, 1, ("2026-01-01T00:05:00")⟩ ∧
    (⟨7, 1, ("2026-01-01T00:05:00")⟩ : AuthData).target_site_id = site1.id ∧
    db7.profiles.find? (fun p => p.id == (7 : Nat)) = some p5 ∧
    ((exchange_auth_code db7 cache1 site1 ("X")).1 = .success p5.id ∧
     (exchange_auth_code (exchange_auth_code db7 cache1 site1 ("X")).2.1
       (exchange_auth_code db7 cache1 site1 ("X")).2.2 site1 ("X")).1 =
       .invalidOrExpiredCode) :=
  ⟨rfl, rfl, rfl,
   sequential_double_redeem db7 cache1 site1 ("X")
     ⟨7, 1, ("2026-01-01T00:05:00")⟩ p5 rfl rfl rfl⟩

/-- Claim C9: starting from a store with no activity row for the pair, any
positive number n of visits of the same (account, site) pair leaves exactly
one row for that pair, and its counter equals n — so the first visit creates
the row with counter 1, every further visit adds exactly 1, the counter is
strictly increasing in the number of visits, and no duplicate row for the
pair ever appears. -/
theorem visit_counter_single_row_monotone (acts : List UserSiteActivity)
    (u s : Nat) (h : acts.filter (activityMatches u s) = []) (n : Nat) :
    1 ≤ n →
      (visitIter acts u s n).filter (activityMatches u s) = [⟨u, s, (n : Int)⟩] := by
  induction n with
  | zero => intro hn; exact absurd hn (by decide)
  | succ k ih =>
    intro _
    rcases Nat.eq_zero_or_pos k with hk | hk
    · subst hk
      have hstep : visitIter acts u s (0 + 1) = get_or_create_visit acts u s := rfl
      rw [hstep, get_or_create_visit_absent acts u s h]
      norm_num
    · have ihk := ih hk
      have hstep : visitIter acts u s (k + 1) =
        get_or_create_visit (visitIter acts u s k) u s := rfl
      rw [hstep, get_or_create_visit_present _ u s _ ihk]
      push_cast
      simp

/-- Claim C6: provisioning a password-login account with a referral code that
resolves to an existing account with a different id gives the new account a
balance and lifetime_earned of 10, appends exactly one welcome_bonus entry of
amount 10 for it and exactly one referral_bonus entry of amount 10 for the
referrer (and no separate base 5-credit entry), and raises the referrer row
credits and lifetime_earned by 10. -/
theorem password_referral_provisioning (db : DB) (site : BookSite)
    (email rc : String) (newId : Nat) (newRefCode : String)
    (referrer : UserProfile)
    (hfind : findByReferralCode db.profiles rc = some referrer)
    (hfresh : ∀ p ∈ db.profiles, p.id ≠ newId)
    (hemail : db.profiles.any (fun p => p.email == email) = false) :
    distributed_login_new db site email (some rc) newId newRefCode =
      (.success
        { id := newId, email := email, google_id := "",
          referral_code := newRefCode, referred_by := some referrer.id,
          credits := 10, total_credits_earned := 10,
          total_credits_spent := 0 } true,
       { profiles := saveProfile db.profiles
           { referrer with
             credits := referrer.credits + 10,
             total_credits_earned := referrer.total_credits_earned + 10 } ++
           [{ id := newId, email := email, google_id := "",
              referral_code := newRefCode, referred_by := some referrer.id,
              credits := 10, total_credits_earned := 10,
              total_credits_spent := 0 }],
         transactions := db.transactions ++
           [⟨newId, some site.id, ("welcome_bonus"), 10,
             ("Welcome bonus + referral bonus")⟩,
            ⟨referrer.id, some site.id, ("referral_bonus"), 10,
             ("Referral bonus for ") ++ email⟩],
         activities := db.activities ++ [⟨newId, site.id, 1⟩] }) := by
  have hrefmem : referrer ∈ db.profiles := List.mem_of_find?_eq_some hfind
  have hrefid : referrer.id ≠ newId := hfresh referrer hrefmem
  have hfind1 : findByReferralCode (db.profiles ++
      [{ id := newId, email := email, google_id := "",
         referral_code := newRefCode, referred_by := none, credits := 5,
         total_credits_earned := 0, total_credits_spent := 0 }]) rc
      = some referrer := by
    unfold findByReferralCode at hfind ⊢
    exact find?_append_of_some _ _ _ _ hfind
  simp only [distributed_login_new, hemail, Bool.false_eq_true, if_false, hfind1]
  rw [if_pos hrefid]
  simp only [show (5 : Int) + 5 = 10 from by norm_num]
  rw [saveProfile_append]
  rw [saveProfile_of_fresh db.profiles
    { id := newId, email := email, google_id := "", referral_code := newRefCode,
      referred_by := some referrer.id, credits := 10, total_credits_earned := 10,
      total_credits_spent := 0 } hfresh]
  have hsingle1 : saveProfile
      [{ id := newId, email := email, google_id := "",
         referral_code := newRefCode, referred_by := none, credits := 5,
         total_credits_earned := 0, total_credits_spent := 0 }]
      { id := newId, email := email, google_id := "",
        referral_code := newRefCode, referred_by := some referrer.id,
        credits := 10, total_credits_earned := 10, total_credits_spent := 0 } =
      [{ id := newId, email := email, google_id := "",
         referral_code := newRefCode, referred_by := some referrer.id,
         credits := 10, total_credits_earned := 10, total_credits_spent := 0 }] := by
    simp [saveProfile]
  rw [hsingle1]
  rw [saveProfile_append]
  have hsingle2 : saveProfile
      [{ id := newId, email := email, google_id := "",
         referral_code := newRefCode, referred_by := some referrer.id,
         credits := 10, total_credits_earned := 10, total_credits_spent := 0 }]
      { referrer with
        credits := referrer.credits + 10,
        total_credits_earned := referrer.total_credits_earned + 10 } =
      [{ id := newId, email := email, google_id := "",
         referral_code := newRefCode, referred_by := some referrer.id,
         credits := 10, total_credits_earned := 10, total_credits_spent := 0 }] := by
    simp [saveProfile, Ne.symm hrefid]
  rw [hsingle2]

/-- Witness for password_referral_provisioning: provisioning account 1 with
the referral code of the stored account 2. -/
theorem password_referral_provisioning_wit :
    findByReferralCode dbB.profiles ("RCB") = some referrerB ∧
    (∀ p ∈ dbB.profiles, p.id ≠ 1) ∧
    dbB.profiles.any (fun p => p.email == ("alice@example.com")) = false ∧
    distributed_login_new dbB site1 ("alice@example.com") (some ("RCB")) 1 ("RCA") =
      (.success
        { id := 1, email := ("alice@example.com"), google_id := "",
          referral_code := ("RCA"), referred_by := some referrerB.id,
          credits := 10, total_credits_earned := 10,
          total_credits_spent := 0 } true,
       { profiles := saveProfile dbB.profiles
           { referrerB with
             credits := referrerB.credits + 10,
             total_credits_earned := referrerB.total_credits_earned + 10 } ++
           [{ id := 1, email := ("alice@example.com"), google_id := "",
              referral_code := ("RCA"), referred_by := some referrerB.id,
              credits := 10, total_credits_earned := 10,
              total_credits_spent := 0 }],
         transactions := dbB.transactions ++
           [⟨1, some site1.id, ("welcome_bonus"), 10,
             ("Welcome bonus + referral bonus")⟩,
            ⟨referrerB.id, some site1.id, ("referral_bonus"), 10,
             ("Referral bonus for ") ++ ("alice@example.com")⟩],
         activities := dbB.activities ++ [⟨1, site1.id, 1⟩] }) :=
  ⟨rfl, by decide, rfl,
   password_referral_provisioning dbB site1 ("alice@example.com") ("RCB") 1
     ("RCA") referrerB rfl (by decide) rfl⟩

/-- Witness for visit_counter_single_row_monotone: three visits of account 7
through site 1 starting from an empty table leave one row with counter 3. -/
theorem visit_counter_single_row_monotone_wit :
    ([] : List UserSiteActivity).filter (activityMatches 7 1) = [] ∧
    1 ≤ 3 ∧
    (visitIter [] 7 1 3).filter (activityMatches 7 1) = [⟨7, 1, ((3 : Nat) : Int)⟩] :=
  ⟨rfl, by decide, visit_counter_single_row_monotone [] 7 1 rfl 3 (by decide)⟩

end AuthorApi
